import Mathlib

/-!
Verification of the query/analytics engine, caching predicate, merge procedure
and tool-dispatch loop of the ask.shag.dance archive service.

The definitions below are a shallow embedding of the Python source:
`backend/tools.py` (filter pipeline, query executor, analytics executor),
`backend/query_cache.py` (cacheability predicate), `backend/chat_handler.py`
(tool-dispatch loop and cache-store condition) and `scripts/update_data.py`
(offline merge).  Pandas dataframes are modelled as `List Row`; a missing
(NaN) cell is `Option.none`; Python dict results are modelled as structures
or sum types, one constructor per distinct result shape.
-/

/-- One row of the archive CSV (`Shaggy_Shag_Archives_Final.csv`).
Columns that the code treats as possibly missing (`dropna`, `na=False`,
equality against NaN) are `Option`s; `Year` and `Placement` are read as
integers by every code path that touches them. -/
structure Row where
  archiveId : Int
  contest : Option String
  organization : String
  year : Int
  hostClub : Option String
  placement : Int
  division : String
  femaleName : Option String
  maleName : Option String
  coupleName : Option String
  judge1 : Option String
  judge2 : Option String
  judge3 : Option String
  judge4 : Option String
  judge5 : Option String
  recordId : Int
  deriving DecidableEq, Repr

/-- The `filters` dict accepted by `execute_query_csa_data`; an absent key is
`none`. -/
structure FilterSpec where
  division : Option String := none
  organization : Option String := none
  placement : Option Int := none
  male_name : Option String := none
  female_name : Option String := none
  year : Option Int := none
  start_year : Option Int := none
  end_year : Option Int := none
  contest : Option String := none
  gender : Option String := none
  count_what : Option String := none
  metric : Option String := none
  dancer_name : Option String := none
  deriving DecidableEq, Repr

/-- Python truthiness of an optional string value (`if filters[k]`):
present and non-empty. -/
def strOn : Option String → Bool
  | some s => s ≠ ""
  | none => false

/-- Python truthiness of an optional integer value (`if filters[k]`):
present and non-zero. -/
def intOn : Option Int → Bool
  | some n => n ≠ 0
  | none => false

/-- Python `str.lower()` (ASCII case folding, character by character). -/
def pyLower (s : String) : String := ⟨s.data.map Char.toLower⟩

/-- Python `str.strip()`: drop whitespace from both ends. -/
def pyStrip (s : String) : String :=
  ⟨((s.data.dropWhile Char.isWhitespace).reverse.dropWhile Char.isWhitespace).reverse⟩

/-- Boolean substring test on character lists (`needle` occurs inside
`hay`), the semantics of Python's `in` on strings. -/
def containsSub (needle : List Char) : List Char → Bool
  | [] => needle.isEmpty
  | c :: t => needle.isPrefixOf (c :: t) || containsSub needle t

/-- `series.str.contains(pat, case=False, na=False)` applied to one cell:
case-insensitive substring match, a missing cell never matches. -/
def optContainsCI (pat : String) : Option String → Bool
  | some s => containsSub (pyLower pat).data (pyLower s).data
  | none => false

/-- Division stage of the filter pipeline (tools.py 180-182). -/
def fDivision (f : FilterSpec) (d : List Row) : List Row :=
  match f.division with
  | some v => if v ≠ "" then d.filter (fun r => r.division == v) else d
  | none => d

/-- Organization stage (tools.py 184-186); the value `"Both"` is ignored. -/
def fOrganization (f : FilterSpec) (d : List Row) : List Row :=
  match f.organization with
  | some v => if v ≠ "" && v ≠ "Both" then d.filter (fun r => r.organization == v) else d
  | none => d

/-- Placement stage (tools.py 188-190); applied whenever the key is not
`None`, including placement `0`. -/
def fPlacement (f : FilterSpec) (d : List Row) : List Row :=
  match f.placement with
  | some p => d.filter (fun r => r.placement == p)
  | none => d

/-- Male-name stage (tools.py 192-194); a missing cell never equals a
supplied name. -/
def fMaleName (f : FilterSpec) (d : List Row) : List Row :=
  match f.male_name with
  | some v => if v ≠ "" then d.filter (fun r => r.maleName == some v) else d
  | none => d

/-- Female-name stage (tools.py 196-198). -/
def fFemaleName (f : FilterSpec) (d : List Row) : List Row :=
  match f.female_name with
  | some v => if v ≠ "" then d.filter (fun r => r.femaleName == some v) else d
  | none => d

/-- Year stage (tools.py 200-202). -/
def fYear (f : FilterSpec) (d : List Row) : List Row :=
  match f.year with
  | some y => if y ≠ 0 then d.filter (fun r => r.year == y) else d
  | none => d

/-- Year-range stage (tools.py 205-210); needs both ends supplied and
truthy, otherwise the whole range constraint is ignored. -/
def fYearRange (f : FilterSpec) (d : List Row) : List Row :=
  match f.start_year, f.end_year with
  | some a, some b =>
      if a ≠ 0 && b ≠ 0 then d.filter (fun r => a ≤ r.year && r.year ≤ b) else d
  | _, _ => d

/-- Contest stage (tools.py 212-214): case-insensitive substring, rows with
a missing contest name are dropped rather than erroring. -/
def fContest (f : FilterSpec) (d : List Row) : List Row :=
  match f.contest with
  | some v => if v ≠ "" then d.filter (fun r => optContainsCI v r.contest) else d
  | none => d

/-- The filter pipeline of `execute_query_csa_data` (tools.py 180-214),
applied in source order. -/
def applyFilters (f : FilterSpec) (df : List Row) : List Row :=
  fContest f (fYearRange f (fYear f (fFemaleName f (fMaleName f
    (fPlacement f (fOrganization f (fDivision f df)))))))

/-- `filtered_records` as reported in every query result. -/
def filteredCount (f : FilterSpec) (df : List Row) : Nat :=
  (applyFilters f df).length

/-- The empty filter specification (Python `{}`). -/
def emptySpec : FilterSpec := {}

theorem fDivision_length_le (f : FilterSpec) (d : List Row) :
    (fDivision f d).length ≤ d.length := by
  unfold fDivision; cases f.division <;> simp <;> split <;>
    simp [List.length_filter_le]

theorem fOrganization_length_le (f : FilterSpec) (d : List Row) :
    (fOrganization f d).length ≤ d.length := by
  unfold fOrganization; cases f.organization <;> simp <;> split <;>
    simp [List.length_filter_le]

theorem fPlacement_length_le (f : FilterSpec) (d : List Row) :
    (fPlacement f d).length ≤ d.length := by
  unfold fPlacement; cases f.placement <;> simp [List.length_filter_le]

theorem fMaleName_length_le (f : FilterSpec) (d : List Row) :
    (fMaleName f d).length ≤ d.length := by
  unfold fMaleName; cases f.male_name <;> simp <;> split <;>
    simp [List.length_filter_le]

theorem fFemaleName_length_le (f : FilterSpec) (d : List Row) :
    (fFemaleName f d).length ≤ d.length := by
  unfold fFemaleName; cases f.female_name <;> simp <;> split <;>
    simp [List.length_filter_le]

theorem fYear_length_le (f : FilterSpec) (d : List Row) :
    (fYear f d).length ≤ d.length := by
  unfold fYear; cases f.year <;> simp <;> split <;>
    simp [List.length_filter_le]

theorem fYearRange_length_le (f : FilterSpec) (d : List Row) :
    (fYearRange f d).length ≤ d.length := by
  unfold fYearRange
  cases f.start_year <;> cases f.end_year <;> simp <;> split <;>
    simp [List.length_filter_le]

theorem fContest_length_le (f : FilterSpec) (d : List Row) :
    (fContest f d).length ≤ d.length := by
  unfold fContest; cases f.contest <;> simp <;> split <;>
    simp [List.length_filter_le]

/-- C2, first half as a lemma: every filter stage only shrinks the frame. -/
theorem applyFilters_length_le (f : FilterSpec) (df : List Row) :
    (applyFilters f df).length ≤ df.length :=
  le_trans (fContest_length_le f _) <|
    le_trans (fYearRange_length_le f _) <|
      le_trans (fYear_length_le f _) <|
        le_trans (fFemaleName_length_le f _) <|
          le_trans (fMaleName_length_le f _) <|
            le_trans (fPlacement_length_le f _) <|
              le_trans (fOrganization_length_le f _) (fDivision_length_le f df)

theorem applyFilters_empty (df : List Row) : applyFilters emptySpec df = df := rfl

/-- C2: for every filter specification the filtered record count is at most
the original count, and the empty specification filters nothing: the
filtered count equals the original count. -/
theorem c2_filtered_count_le (f : FilterSpec) (df : List Row) :
    filteredCount f df ≤ df.length ∧ filteredCount emptySpec df = df.length := by
  exact ⟨applyFilters_length_le f df, by rw [filteredCount, applyFilters_empty]⟩

/-! ## Generic list helpers shared by several operations

`uniqueFirst` is pandas `Series.unique()` / ordered de-duplication (keep
the first occurrence); `isort` is a stable insertion sort standing in for
the sorts the code performs (`sort()`, `value_counts()` ordering,
`nlargest`, `sort_values`). -/

/-- Ordered de-duplication keeping the first occurrence of each value. -/
def uniqueFirst {α : Type} [DecidableEq α] : List α → List α
  | [] => []
  | a :: t => a :: (uniqueFirst t).filter (fun b => b ≠ a)

theorem mem_uniqueFirst {α : Type} [DecidableEq α] (a : α) (l : List α) :
    a ∈ uniqueFirst l ↔ a ∈ l := by
  induction l with
  | nil => simp [uniqueFirst]
  | cons b t ih =>
      by_cases hab : a = b
      · subst hab; simp [uniqueFirst]
      · simp [uniqueFirst, hab, ih]

theorem nodup_uniqueFirst {α : Type} [DecidableEq α] (l : List α) :
    (uniqueFirst l).Nodup := by
  induction l with
  | nil => simp [uniqueFirst]
  | cons b t ih =>
      refine List.nodup_cons.mpr ⟨?_, ih.filter _⟩
      intro hmem
      have h2 := (List.mem_filter.mp hmem).2
      simp at h2

/-- `uniqueFirst l` is a permutation of Mathlib's `l.dedup` (which keeps
last occurrences): both are duplicate-free with the same members. -/
theorem uniqueFirst_perm_dedup {α : Type} [DecidableEq α] (l : List α) :
    List.Perm (uniqueFirst l) l.dedup := by
  refine (List.perm_ext_iff_of_nodup (nodup_uniqueFirst l) l.nodup_dedup).mpr ?_
  intro a
  rw [mem_uniqueFirst, List.mem_dedup]

/-- Insert according to a Boolean "comes no later than" test. -/
def insertLe {α : Type} (le : α → α → Bool) (a : α) : List α → List α
  | [] => [a]
  | b :: t => if le a b then a :: b :: t else b :: insertLe le a t

/-- Stable insertion sort. -/
def isort {α : Type} (le : α → α → Bool) : List α → List α
  | [] => []
  | a :: t => insertLe le a (isort le t)

theorem insertLe_perm {α : Type} (le : α → α → Bool) (a : α) (l : List α) :
    List.Perm (insertLe le a l) (a :: l) := by
  induction l with
  | nil => rfl
  | cons b t ih =>
      unfold insertLe
      split
      · rfl
      · exact ((ih.cons b).trans (List.Perm.swap a b t))

theorem isort_perm {α : Type} (le : α → α → Bool) (l : List α) :
    List.Perm (isort le l) l := by
  induction l with
  | nil => rfl
  | cons a t ih => exact (insertLe_perm le a (isort le t)).trans (ih.cons a)

theorem isort_length {α : Type} (le : α → α → Bool) (l : List α) :
    (isort le l).length = l.length :=
  (isort_perm le l).length_eq

/-- `Series.value_counts().`: occurrence counts of the distinct values,
ordered by count descending (pandas tie order is not specified; the sort
here is stable on first occurrence). -/
def valueCounts {α : Type} [DecidableEq α] (l : List α) : List (α × Nat) :=
  isort (fun p q => decide (q.2 ≤ p.2)) ((uniqueFirst l).map (fun v => (v, l.count v)))

/-- Lexicographic comparison of strings by code point, the order Python's
`list.sort()` uses on the candidate names. -/
def charListLe : List Char → List Char → Bool
  | [], _ => true
  | _ :: _, [] => false
  | a :: s, b :: t => if a = b then charListLe s t else decide (a < b)

/-- String comparison for `sorted()` / `list.sort()`. -/
def strLe (a b : String) : Bool := charListLe a.data b.data

/-- Python `round(x, 1)` modelled in exact rational arithmetic: round to
the nearest tenth. -/
def round1 (q : ℚ) : ℚ := (round (q * 10) : ℤ) / 10

/-! ## Name resolution: `dancer_search` (tools.py 254-306) -/

/-- The distinct names matched case-insensitively as substrings in either
name column, sorted — `sorted(set(male_matches) | set(female_matches))`.
The values taken from a column that matched are necessarily present, hence
the `filterMap`. -/
def dsAllMatches (df : List Row) (s : String) : List String :=
  let maleM := uniqueFirst ((df.filter (fun r => optContainsCI s r.maleName)).filterMap (·.maleName))
  let femaleM := uniqueFirst ((df.filter (fun r => optContainsCI s r.femaleName)).filterMap (·.femaleName))
  isort strLe (uniqueFirst (maleM ++ femaleM))

/-- The additional-filter loop inside the single-match branch of
`dancer_search` (tools.py 278-287): only `organization`, `division` and
`start_year` (with `end_year` defaulting to 2024) act; the predicates all
commute, so the dict iteration order is irrelevant and a fixed order is
used here. -/
def dsExtraFilters (f : FilterSpec) (d : List Row) : List Row :=
  let d := match f.organization with
    | some v => if v ≠ "" && v ≠ "Both" then d.filter (fun r => r.organization == v) else d
    | none => d
  let d := match f.division with
    | some v => if v ≠ "" then d.filter (fun r => r.division == v) else d
    | none => d
  match f.start_year with
  | some a =>
      if a ≠ 0 then
        let b := f.end_year.getD 2024
        d.filter (fun r => a ≤ r.year && r.year ≤ b)
      else d
  | none => d

/-- The four result shapes of `dancer_search`. -/
inductive DSOutcome where
  /-- `dancer_name` missing or blank: `result["error"]` is set. -/
  | missingName
  /-- zero matches: spelling suggestion. -/
  | notFound
  /-- exactly one distinct matched name: expanded profile.  `yearsActive`
  is the `min-max` year pair, `none` when the extra filters empty the
  frame (the Python f-string would print `nan-nan`). -/
  | single (exactName : String) (totalContests wins : Nat)
      (divisions : List String) (yearsActive : Option (Int × Int))
  /-- two or more distinct matches: candidate list capped at 10. -/
  | multiple (ms : List String) (matchCount : Nat)
  deriving DecidableEq, Repr

/-- `dancer_search` after the search string has been read and stripped. -/
def dancerSearchCore (df : List Row) (f : FilterSpec) (s : String) : DSOutcome :=
  if s = "" then .missingName
  else
    match dsAllMatches df s with
    | [] => .notFound
    | [n] =>
        let d0 := df.filter (fun r => r.maleName == some n || r.femaleName == some n)
        let d := dsExtraFilters f d0
        .single n d.length (d.filter (fun r => r.placement == 1)).length
          (uniqueFirst (d.map (·.division)))
          (match (d.map (·.year)).min?, (d.map (·.year)).max? with
            | some a, some b => some (a, b)
            | _, _ => none)
    | ms => .multiple (ms.take 10) ms.length

/-- The `dancer_search` branch: `filters.get('dancer_name', '').strip()`
then the three-way outcome. -/
def dancerSearch (df : List Row) (f : FilterSpec) : DSOutcome :=
  dancerSearchCore df f (pyStrip (f.dancer_name.getD ""))

/-! ## Name resolution: `smart_dancer_lookup` (tools.py 371-456) -/

/-- `pd.concat([exact_male_df, exact_female_df]).drop_duplicates()`:
rows matching the name exactly in either column, full-row de-duplicated
keeping the first occurrence. -/
def slExactRows (df : List Row) (s : String) : List Row :=
  uniqueFirst (df.filter (fun r => r.maleName == some s)
    ++ df.filter (fun r => r.femaleName == some s))

/-- The partial-match fallback frame. -/
def slPartialRows (df : List Row) (s : String) : List Row :=
  uniqueFirst (df.filter (fun r => optContainsCI s r.maleName)
    ++ df.filter (fun r => optContainsCI s r.femaleName))

/-- `list(set(male_matches) | set(female_matches))`: the distinct names of
the partial matches (Python set order is unspecified; first-occurrence
order is used here). -/
def slPartialNames (df : List Row) (s : String) : List String :=
  uniqueFirst ((df.filter (fun r => optContainsCI s r.maleName)).filterMap (·.maleName)
    ++ (df.filter (fun r => optContainsCI s r.femaleName)).filterMap (·.femaleName))

/-- The additional filters of `smart_dancer_lookup` (tools.py 410-419):
`end_year` defaults to the maximum year of the frame filtered so far. -/
def slExtraFilters (f : FilterSpec) (d : List Row) : List Row :=
  let d := match f.organization with
    | some v => if v ≠ "" && v ≠ "Both" then d.filter (fun r => r.organization == v) else d
    | none => d
  let d := match f.division with
    | some v => if v ≠ "" then d.filter (fun r => r.division == v) else d
    | none => d
  match f.start_year with
  | some a =>
      if a ≠ 0 then
        let b := f.end_year.getD (((d.map (·.year)).max?).getD 0)
        d.filter (fun r => a ≤ r.year && r.year ≤ b)
      else d
  | none => d

/-- The comprehensive summary returned for a resolved dancer. -/
structure SLProfile where
  totalContests : Nat
  totalWins : Nat
  winRate : ℚ
  /-- `career_span`: min and max year; `none` renders as `"No data"`. -/
  careerSpan : Option (Int × Int)
  organizations : List String
  /-- per-division `(contests, wins)` pairs. -/
  divisionBreakdown : List (String × Nat × Nat)
  recentContests : List Row
  deriving DecidableEq, Repr

/-- The four result shapes of `smart_dancer_lookup`. -/
inductive SLOutcome where
  /-- `dancer_name` missing or blank: `result["error"]` is set. -/
  | missingName
  /-- no exact match but at least one partial match: `possible_matches`
  capped at 10 is returned and the call stops. -/
  | candidates (possibleMatches : List String) (matchCount : Nat)
  /-- no match in any form. -/
  | noMatch
  /-- resolved dancer: full profile. -/
  | profile (p : SLProfile)
  deriving DecidableEq, Repr

/-- Whether the outcome is the candidate-list-and-stop shape. -/
def SLOutcome.isCandidates : SLOutcome → Bool
  | .candidates _ _ => true
  | _ => false

/-- `smart_dancer_lookup` after the search string has been stripped. -/
def smartDancerLookupCore (df : List Row) (f : FilterSpec) (limit : Nat) (s : String) :
    SLOutcome :=
  if s = "" then .missingName
  else
    let exact := slExactRows df s
    if exact.length > 0 then
      let d := slExtraFilters f exact
      let total := d.length
      let wins := (d.filter (fun r => r.placement == 1)).length
      .profile {
        totalContests := total
        totalWins := wins
        winRate := if total > 0 then round1 ((wins : ℚ) / (total : ℚ) * 100) else 0
        careerSpan := match (d.map (·.year)).min?, (d.map (·.year)).max? with
          | some a, some b => some (a, b)
          | _, _ => none
        organizations := uniqueFirst (d.map (·.organization))
        divisionBreakdown := (uniqueFirst (d.map (·.division))).map (fun v =>
          let dd := d.filter (fun r => r.division == v)
          (v, dd.length, (dd.filter (fun r => r.placement == 1)).length))
        recentContests := (isort (fun a b => decide (b.year ≤ a.year)) d).take (min 5 limit) }
    else
      let names := slPartialNames df s
      if (slPartialRows df s).length > 0 then .candidates (names.take 10) names.length
      else .noMatch

/-- The `smart_dancer_lookup` branch. -/
def smartDancerLookup (df : List Row) (f : FilterSpec) (limit : Nat) : SLOutcome :=
  smartDancerLookupCore df f limit (pyStrip (f.dancer_name.getD ""))

/-! ## The remaining lookup branches and the `execute_query_csa_data`
dispatcher (tools.py 137-667) -/

/-- Python `round(x, 2)` in exact rational arithmetic. -/
def round2 (q : ℚ) : ℚ := (round (q * 100) : ℤ) / 100

/-- The base result dict built before dispatch (tools.py 220-226). -/
structure BaseMeta where
  query_type : String
  filters_applied : FilterSpec
  total_database_records : Nat
  filtered_records : Nat
  limit : Nat
  deriving DecidableEq, Repr

/-- `judge_statistics` payload (tools.py 318-358).
`totalContestRecords` is only set on the non-empty branch. -/
structure JudgeStatsOut where
  results : List (String × Nat)
  totalContestRecords : Option Nat
  recordsWithJudgeData : Nat
  recordsWithoutJudgeData : Nat
  deriving DecidableEq, Repr

/-- Whether a row has at least one judge recorded
(`notna().any(axis=1)`). -/
def hasJudge (r : Row) : Bool :=
  r.judge1.isSome || r.judge2.isSome || r.judge3.isSome || r.judge4.isSome || r.judge5.isSome

/-- All judge names of a frame, flattened column by column with missing
values dropped (tools.py 331-334). -/
def allJudges (d : List Row) : List String :=
  d.filterMap (·.judge1) ++ d.filterMap (·.judge2) ++ d.filterMap (·.judge3)
    ++ d.filterMap (·.judge4) ++ d.filterMap (·.judge5)

/-- `judge_statistics` on the filtered frame.  The five judge columns are
part of the fixed schema, so the code's no-columns fallback is
unreachable here. -/
def judgeStatsOn (d : List Row) (limit : Nat) : JudgeStatsOut :=
  let aj := allJudges d
  if aj.isEmpty then
    { results := [], totalContestRecords := none,
      recordsWithJudgeData := 0, recordsWithoutJudgeData := d.length }
  else
    let w := (d.filter hasJudge).length
    { results := (valueCounts aj).take limit, totalContestRecords := some d.length,
      recordsWithJudgeData := w, recordsWithoutJudgeData := d.length - w }

/-- `count_wins` / `top_dancers` payload: `value_counts().head(limit)` of
the gender's name column (default gender `male`); an empty frame gives an
empty list. -/
def countWinsResults (f : FilterSpec) (d : List Row) (limit : Nat) : List (String × Nat) :=
  let names := if f.gender.getD "male" = "male"
    then d.filterMap (·.maleName) else d.filterMap (·.femaleName)
  (valueCounts names).take limit

/-- `unique_counts` payloads (tools.py 461-521). -/
inductive UCOutcome where
  /-- `all_dancers`: distinct union, per-gender distinct counts, entries. -/
  | allDancers (uniqueTotal uniqueMale uniqueFemale entries : Nat)
  /-- the five single-column variants. -/
  | single (countWhat : String) (uniqueCount entries : Nat)
  deriving DecidableEq, Repr

/-- `win_statistics` payload (tools.py 524-551). -/
structure WinStatsOut where
  totalContests : Nat
  wins : Nat
  top3 : Nat
  winRatePct : ℚ
  deriving DecidableEq, Repr

/-- `partnership_analysis` payload (tools.py 554-594): per-partner
`(name, contests, wins, win rate)`, sorted by contests descending, capped
at `limit`. -/
structure PartnershipOut where
  totalPartners : Nat
  partnerships : List (String × Nat × Nat × ℚ)
  deriving DecidableEq, Repr

/-- `career_statistics` payload (tools.py 597-636). -/
structure CareerStatsOut where
  firstYear : Int
  lastYear : Int
  careerSpanYears : Int
  yearsCompeted : Nat
  totalContests : Nat
  uniquePartners : Nat
  organizations : List (String × Nat)
  divisions : List String
  deriving DecidableEq, Repr

/-- `yearly_trends` payload (tools.py 639-657): per-year sizes plus the
peak year (`idxmax`: the first year attaining the maximum). -/
structure YearlyTrendsOut where
  metric : String
  yearlyData : List (Int × Nat)
  totalYears : Nat
  peakYear : Option Int
  peakCount : Option Nat
  deriving DecidableEq, Repr

/-- `groupby('Year').size()`: sizes per distinct year, keys ascending. -/
def yearlyGroupSizes (d : List Row) : List (Int × Nat) :=
  (isort (fun a b => decide (a ≤ b)) (uniqueFirst (d.map (·.year)))).map
    (fun y => (y, (d.filter (fun r => r.year == y)).length))

/-- `Series.idxmax` paired with `Series.max`: the first entry attaining
the maximal count. -/
def argmaxPair : List (Int × Nat) → Option (Int × Nat)
  | [] => none
  | p :: t =>
      match argmaxPair t with
      | none => some p
      | some q => if p.2 < q.2 then some q else some p

/-- The `yearly_trends` branch on the filtered frame. -/
def yearlyTrendsOn (f : FilterSpec) (d : List Row) : YearlyTrendsOut :=
  let metric := f.metric.getD "entries"
  let base := if metric = "wins" then d.filter (fun r => r.placement == 1) else d
  let data := yearlyGroupSizes base
  { metric := metric, yearlyData := data, totalYears := data.length,
    peakYear := (argmaxPair data).map (·.1), peakCount := (argmaxPair data).map (·.2) }

/-- Every distinct result shape `execute_query_csa_data` can return.
Branches that enrich the base dict carry a `BaseMeta`; branches that
return a fresh dict do not; `errorOnly` is a fresh `{"error": ...}`
dict. -/
inductive QueryOutput where
  | base (m : BaseMeta)
  | countWins (m : BaseMeta) (results : List (String × Nat))
  | dancerRecord (m : BaseMeta) (recs : List Row)
  | dancerSearchRes (m : BaseMeta) (o : DSOutcome)
  | contestResults (m : BaseMeta) (recs : List Row)
  | judgeStats (m : BaseMeta) (o : JudgeStatsOut)
  | customQuery (m : BaseMeta) (recs : List Row)
  | smartLookup (m : BaseMeta) (o : SLOutcome)
  | uniqueCounts (f : FilterSpec) (o : UCOutcome)
  | errorOnly (msg : String)
  | winStats (f : FilterSpec) (o : WinStatsOut)
  | partnership (f : FilterSpec) (o : PartnershipOut)
  | careerStats (f : FilterSpec) (o : CareerStatsOut)
  | yearlyTrendsRes (f : FilterSpec) (o : YearlyTrendsOut)
  deriving DecidableEq, Repr

/-- The `unique_counts` branch; an unrecognised `count_what` falls through
every sub-branch and the function ends up returning the base dict. -/
def uniqueCountsBranch (m : BaseMeta) (f : FilterSpec) (d : List Row) : QueryOutput :=
  let cw := f.count_what.getD "all_dancers"
  if cw = "all_dancers" then
    .uniqueCounts f (.allDancers
      (uniqueFirst (d.filterMap (·.maleName) ++ d.filterMap (·.femaleName))).length
      (uniqueFirst (d.filterMap (·.maleName))).length
      (uniqueFirst (d.filterMap (·.femaleName))).length d.length)
  else if cw = "male_dancers" then
    .uniqueCounts f (.single cw (uniqueFirst (d.filterMap (·.maleName))).length d.length)
  else if cw = "female_dancers" then
    .uniqueCounts f (.single cw (uniqueFirst (d.filterMap (·.femaleName))).length d.length)
  else if cw = "couples" then
    .uniqueCounts f (.single cw (uniqueFirst (d.filterMap (·.coupleName))).length d.length)
  else if cw = "contests" then
    .uniqueCounts f (.single cw (uniqueFirst (d.filterMap (·.contest))).length d.length)
  else if cw = "venues" then
    .uniqueCounts f (.single cw (uniqueFirst (d.filterMap (·.hostClub))).length d.length)
  else .base m

/-- The rows of the filtered frame belonging to a named dancer. -/
def dancerRows (n : String) (d : List Row) : List Row :=
  d.filter (fun r => r.maleName == some n || r.femaleName == some n)

/-- The `win_statistics` branch. -/
def winStatsBranch (f : FilterSpec) (d : List Row) : QueryOutput :=
  match f.dancer_name with
  | none => .errorOnly "dancer_name is required for win_statistics"
  | some n =>
      if n = "" then .errorOnly "dancer_name is required for win_statistics"
      else
        let dd := dancerRows n d
        if dd.isEmpty then .errorOnly ("No records found for " ++ n)
        else
          let total := dd.length
          let wins := (dd.filter (fun r => r.placement == 1)).length
          .winStats f
            { totalContests := total, wins := wins,
              top3 := (dd.filter (fun r => decide (r.placement ≤ 3))).length,
              winRatePct := round2 (if total > 0 then (wins : ℚ) / (total : ℚ) * 100 else 0) }

/-- The `partnership_analysis` branch. -/
def partnershipBranch (f : FilterSpec) (d : List Row) (limit : Nat) : QueryOutput :=
  match f.dancer_name with
  | none => .errorOnly "dancer_name is required for partnership_analysis"
  | some n =>
      if n = "" then .errorOnly "dancer_name is required for partnership_analysis"
      else
        let dd := dancerRows n d
        if dd.isEmpty then .errorOnly ("No records found for " ++ n)
        else
          let isMale := dd.any (fun r => r.maleName == some n)
          let partnerOf : Row → Option String :=
            fun r => if isMale then r.femaleName else r.maleName
          let stats := (uniqueFirst (dd.filterMap partnerOf)).map (fun p =>
            let pd := dd.filter (fun r => partnerOf r == some p)
            let wins := (pd.filter (fun r => r.placement == 1)).length
            (p, pd.length, wins,
              if pd.length > 0 then round2 ((wins : ℚ) / (pd.length : ℚ) * 100) else (0 : ℚ)))
          .partnership f
            { totalPartners := stats.length,
              partnerships := (isort (fun a b => decide (b.2.1 ≤ a.2.1)) stats).take limit }

/-- The `career_statistics` branch. -/
def careerStatsBranch (f : FilterSpec) (d : List Row) : QueryOutput :=
  match f.dancer_name with
  | none => .errorOnly "dancer_name is required for career_statistics"
  | some n =>
      if n = "" then .errorOnly "dancer_name is required for career_statistics"
      else
        let dd := dancerRows n d
        if dd.isEmpty then .errorOnly ("No records found for " ++ n)
        else
          let years := dd.map (·.year)
          let first := (years.min?).getD 0
          let last := (years.max?).getD 0
          let isMale := dd.any (fun r => r.maleName == some n)
          let partnerOf : Row → Option String :=
            fun r => if isMale then r.femaleName else r.maleName
          .careerStats f
            { firstYear := first, lastYear := last,
              careerSpanYears := last - first + 1,
              yearsCompeted := (uniqueFirst years).length,
              totalContests := dd.length,
              uniquePartners := (uniqueFirst (dd.filterMap partnerOf)).length,
              organizations := valueCounts (dd.map (·.organization)),
              divisions := uniqueFirst (dd.map (·.division)) }

/-- `execute_query_csa_data` after the CSV has loaded: cap the limit,
apply the filter pipeline, build the base result and dispatch on
`query_type` in source order.  A `query_type` matching no branch reaches
the final `return result` and yields the base result unchanged. -/
def executeQueryCsaData (df : List Row) (query_type : String) (f : FilterSpec)
    (limit : Nat) : QueryOutput :=
  let limit := min limit 50
  let filtered := applyFilters f df
  let m : BaseMeta :=
    { query_type := query_type, filters_applied := f,
      total_database_records := df.length, filtered_records := filtered.length,
      limit := limit }
  if query_type = "count_wins" || query_type = "top_dancers" then
    .countWins m (countWinsResults f filtered limit)
  else if query_type = "dancer_record" then .dancerRecord m (filtered.take limit)
  else if query_type = "dancer_search" then .dancerSearchRes m (dancerSearch df f)
  else if query_type = "contest_results" then .contestResults m (filtered.take limit)
  else if query_type = "judge_statistics" then .judgeStats m (judgeStatsOn filtered limit)
  else if query_type = "custom_query" then .customQuery m (filtered.take limit)
  else if query_type = "smart_dancer_lookup" then .smartLookup m (smartDancerLookup df f limit)
  else if query_type = "unique_counts" then uniqueCountsBranch m f filtered
  else if query_type = "win_statistics" then winStatsBranch f filtered
  else if query_type = "partnership_analysis" then partnershipBranch f filtered limit
  else if query_type = "career_statistics" then careerStatsBranch f filtered
  else if query_type = "yearly_trends" then .yearlyTrendsRes f (yearlyTrendsOn f filtered)
  else .base m

/-- The `query_type` strings that reach a dedicated branch. -/
def recognizedQueryTypes : List String :=
  ["count_wins", "top_dancers", "dancer_record", "dancer_search", "contest_results",
   "judge_statistics", "custom_query", "smart_dancer_lookup", "unique_counts",
   "win_statistics", "partnership_analysis", "career_statistics", "yearly_trends"]

/-! ## Analytics executor: `execute_analyze_csa_data` (tools.py 669-913)
(the two analyses the claims concern, over the base-filtered frame) -/

/-- The distinct dancer names of a division: the union of the non-null
`Male Name` and `Female Name` values of the division's rows
(tools.py 842-851, a Python `set`; first-occurrence order here). -/
def divisionDancers (df : List Row) (dv : String) : List String :=
  let d := df.filter (fun r => r.division == dv)
  uniqueFirst (d.filterMap (·.maleName) ++ d.filterMap (·.femaleName))

/-- `amateur_dancers.intersection(pro_dancers)`. -/
def madeItToPro (df : List Row) : List String :=
  (divisionDancers df "Amateur").filter (fun n => (divisionDancers df "Pro").contains n)

/-- `retention_analysis` result (tools.py 840-861). -/
structure RetentionOut where
  totalAmateurDancers : Nat
  reachedPro : Nat
  retentionRatePct : ℚ
  stillAmateurOnly : Nat
  deriving DecidableEq, Repr

/-- The `retention_analysis` branch: rate is `0` when there are no
Amateur dancers (`if amateur_dancers else 0`), otherwise the percentage
rounded to one decimal. -/
def retentionAnalysis (df : List Row) : RetentionOut :=
  let am := divisionDancers df "Amateur"
  let made := madeItToPro df
  { totalAmateurDancers := am.length
    reachedPro := made.length
    retentionRatePct :=
      if am.isEmpty then 0 else round1 ((made.length : ℚ) / (am.length : ℚ) * 100)
    stillAmateurOnly := am.length - made.length }

/-- The years of the named dancer's rows in the given division
(tools.py 879-887). -/
def dancerDivYears (df : List Row) (n dv : String) : List Int :=
  ((df.filter (fun r =>
    (r.maleName == some n || r.femaleName == some n) && r.division == dv)).map (·.year))

/-- One dancer's contribution to `career_progression_time`
(tools.py 889-895): the positive difference of first Pro and first
Amateur year, or nothing. -/
def progOf (df : List Row) (n : String) : Option Int :=
  match (dancerDivYears df n "Amateur").min?, (dancerDivYears df n "Pro").min? with
  | some fa, some fp => if fp - fa > 0 then some (fp - fa) else none
  | _, _ => none

/-- The list of measured progression times, one per qualifying dancer in
`made_it` (Python iterates a set; order does not affect any reported
number). -/
def progressionTimes (df : List Row) : List Int :=
  (madeItToPro df).filterMap (progOf df)

/-- `career_progression_time` result (tools.py 897-903). -/
structure ProgressionOut where
  dancersAnalyzed : Nat
  avgYearsToPro : Option ℚ
  fastest : Option Int
  slowest : Option Int
  deriving DecidableEq, Repr

/-- The `career_progression_time` branch. -/
def careerProgressionTime (df : List Row) : ProgressionOut :=
  let ts := progressionTimes df
  { dancersAnalyzed := ts.length
    avgYearsToPro :=
      if ts.isEmpty then none else some (round1 ((ts.sum : ℚ) / (ts.length : ℚ)))
    fastest := ts.min?
    slowest := ts.max? }

/-! ## Offline merge: `update_archive_data` (scripts/update_data.py 56-85) -/

/-- `DataFrame.update`: overwrite each field of `old` from `new` where the
incoming value is present (`update` skips NaN cells of the incoming
frame); the index key `Archive ID` is untouched. -/
def Row.updFrom (old new : Row) : Row :=
  { archiveId := old.archiveId
    contest := match new.contest with | some v => some v | none => old.contest
    organization := new.organization
    year := new.year
    hostClub := match new.hostClub with | some v => some v | none => old.hostClub
    placement := new.placement
    division := new.division
    femaleName := match new.femaleName with | some v => some v | none => old.femaleName
    maleName := match new.maleName with | some v => some v | none => old.maleName
    coupleName := match new.coupleName with | some v => some v | none => old.coupleName
    judge1 := match new.judge1 with | some v => some v | none => old.judge1
    judge2 := match new.judge2 with | some v => some v | none => old.judge2
    judge3 := match new.judge3 with | some v => some v | none => old.judge3
    judge4 := match new.judge4 with | some v => some v | none => old.judge4
    judge5 := match new.judge5 with | some v => some v | none => old.judge5
    recordId := new.recordId }

/-- `drop_duplicates(subset=['Archive ID'], keep='last')`: drop a row when
a later row carries the same Archive ID. -/
def dedupLastById : List Row → List Row
  | [] => []
  | a :: t =>
      if t.any (fun b => b.archiveId == a.archiveId) then dedupLastById t
      else a :: dedupLastById t

/-- Whether an Archive ID already occurs in the store. -/
def idInStore (existing : List Row) (i : Int) : Bool :=
  existing.any (fun e => e.archiveId == i)

/-- The merge of `update_archive_data`: de-duplicate the batch keep-last,
overwrite matching store rows in place, append the genuinely new rows,
and re-sort by (Year, Contest, Division, Placement).  (The sort key on
the optional contest name follows pandas `sort_values`; it cannot affect
any row count.) -/
def strLtB (x y : String) : Bool := charListLe x.data y.data && x != y

/-- `sort_values` comparison on an optional string key: missing values
sort last (`na_position='last'`). -/
def optStrLtB : Option String → Option String → Bool
  | some x, some y => strLtB x y
  | some _, none => true
  | none, _ => false

/-- The `sort_values(['Year', 'Contest', 'Division', 'Placement'])` key
order of the merged frame. -/
def mergeSortLe (a b : Row) : Bool :=
  decide (a.year < b.year) ||
  (a.year == b.year && (optStrLtB a.contest b.contest ||
    (a.contest == b.contest && (strLtB a.division b.division ||
      (a.division == b.division && decide (a.placement ≤ b.placement))))))

def updateArchiveData (existing batch : List Row) : List Row :=
  let clean := dedupLastById batch
  let toAdd := clean.filter (fun b => !idInStore existing b.archiveId)
  let updated := existing.map (fun old =>
    match clean.find? (fun b => b.archiveId == old.archiveId) with
    | some b => old.updFrom b
    | none => old)
  isort mergeSortLe (updated ++ toAdd)

/-! ## Answer cache: `QueryCache.should_cache_query`
(query_cache.py 110-151) and the smart-cache store condition
(chat_handler.py 793-803) -/

/-- `query.lower().strip()`. -/
def normalizeQuery (q : String) : String := pyStrip (pyLower q)

/-- The statistical patterns worth caching (query_cache.py 115-127). -/
def cachePatterns : List String :=
  ["who has the most", "how many wins", "top dancers", "win rate",
   "career statistics", "partnership analysis", "contest results",
   "judge statistics", "what are the rules", "division system",
   "advancement criteria"]

/-- The time-sensitive or account-specific patterns never cached
(query_cache.py 130-138). -/
def noCachePatterns : List String :=
  ["current", "today", "recent", "latest", "this year", "register", "feedback"]

/-- Whether any of the patterns occurs inside the normalized query. -/
def containsAnyPattern (pats : List String) (q : String) : Bool :=
  pats.any (fun p => containsSub p.data (normalizeQuery q).data)

/-- `should_cache_query`: no-cache patterns first, then cache patterns,
then the length-over-20 default. -/
def shouldCacheQuery (q : String) : Bool :=
  if containsAnyPattern noCachePatterns q then false
  else if containsAnyPattern cachePatterns q then true
  else (normalizeQuery q).data.length > 20

/-- The condition under which `process_query` stores the final answer in
the smart cache (chat_handler.py 793-803): a successful, substantial
answer and a cacheable question. -/
def smartCacheStores (q answer : String) : Bool :=
  answer ≠ "" && !("Error:".data.isPrefixOf answer.data)
    && answer.data.length > 50 && shouldCacheQuery q

/-! ## Tool-dispatch loop of `process_query` (chat_handler.py 717-790) -/

/-- What the loop inspects of one oracle response: the stop reason and
how many `tool_use` blocks the content carries. -/
structure OracleResponse where
  stopReason : String
  toolBlocks : Nat
  text : String
  deriving DecidableEq, Repr

/-- The loop continues past a response exactly when its stop reason is
`tool_use` and it carries at least one `tool_use` block (otherwise the
inner `break` fires or the `while` condition fails). -/
def continuesLoop (r : OracleResponse) : Bool :=
  r.stopReason == "tool_use" && r.toolBlocks > 0

/-- The dispatch loop against a scripted oracle (`oracle n` is the
response to the `n`-th API call), observed for `fuel` further rounds:
`some text` when the loop exits and the final text is extracted within
that window, `none` when the loop is still running after `fuel` more
rounds.  The real `while` has no round counter, so the real loop's
behaviour is the limit over all `fuel`. -/
def dispatchLoop (oracle : Nat → OracleResponse) : Nat → Nat → Option String
  | n, fuel =>
      if continuesLoop (oracle n) then
        match fuel with
        | 0 => none
        | f + 1 => dispatchLoop oracle (n + 1) f
      else some (oracle n).text

/-- An oracle that requests tool use forever. -/
def perpetualToolOracle : Nat → OracleResponse :=
  fun _ => { stopReason := "tool_use", toolBlocks := 1, text := "" }

/-! ## Claim theorems -/

theorem dispatchLoop_perpetual (n fuel : Nat) :
    dispatchLoop perpetualToolOracle n fuel = none := by
  induction fuel generalizing n with
  | zero => rfl
  | succ f ih =>
      unfold dispatchLoop
      simpa [perpetualToolOracle, continuesLoop] using ih (n + 1)

/-- C1, counterexample: the dispatch loop of `process_query` is *not*
bounded by any maximum round count — against the oracle that requests
tool use on every round, no round bound `M` makes the loop produce an
answer; it simply never terminates. -/
theorem c1_counterexample :
    ¬ ∃ M : Nat, dispatchLoop perpetualToolOracle 0 M ≠ none := by
  rintro ⟨M, hM⟩
  exact hM (dispatchLoop_perpetual 0 M)

theorem dispatchLoop_halts_iff (oracle : Nat → OracleResponse) (s fuel : Nat) :
    dispatchLoop oracle s fuel ≠ none ↔
      ∃ m ≤ fuel, continuesLoop (oracle (s + m)) = false := by
  induction fuel generalizing s with
  | zero =>
      unfold dispatchLoop
      by_cases h : continuesLoop (oracle s) = true
      · simp [h]
      · simp only [Bool.not_eq_true] at h
        simp [h]
  | succ f ih =>
      unfold dispatchLoop
      by_cases h : continuesLoop (oracle s) = true
      · rw [if_pos h]
        rw [ih (s + 1)]
        constructor
        · rintro ⟨m, hm, hc⟩
          refine ⟨m + 1, by omega, ?_⟩
          have : s + 1 + m = s + (m + 1) := by omega
          rwa [this] at hc
        · rintro ⟨m, hm, hc⟩
          match m with
          | 0 => simp at hc; rw [hc] at h; simp at h
          | m' + 1 =>
              refine ⟨m', by omega, ?_⟩
              have : s + (m' + 1) = s + 1 + m' := by omega
              rwa [this] at hc
      · simp only [Bool.not_eq_true] at h
        simp only [h, if_false, ne_eq, reduceCtorEq, not_false_eq_true, true_iff]
        exact ⟨0, by omega, by simpa using h⟩

/-- C1, amended: the dispatch loop of `process_query` has no configured
maximum round count.  Observed for any window of `fuel` rounds, it
produces a final (non-crashing) answer within the window exactly when
some response in the window stops requesting tool use; against an oracle
that perpetually requests tools it therefore never terminates. -/
theorem c1_loop_unbounded (oracle : Nat → OracleResponse) (fuel : Nat) :
    (dispatchLoop oracle 0 fuel ≠ none ↔
      ∃ m ≤ fuel, continuesLoop (oracle m) = false) := by
  simpa using dispatchLoop_halts_iff oracle 0 fuel

/-- A concrete row with the given names, division, year and placement
(remaining cells empty), for concrete evaluations. -/
def mkRow (male female : Option String) (division : String) (year placement : Int) : Row :=
  { archiveId := 0, contest := none, organization := "CSA", year := year, hostClub := none,
    placement := placement, division := division, femaleName := female, maleName := male,
    coupleName := none, judge1 := none, judge2 := none, judge3 := none, judge4 := none,
    judge5 := none, recordId := 0 }

/-- A store containing the dancers `Ann` and `Annie`: `Ann` is an exact
stored name and also a substring of `Annie`. -/
def annDb : List Row :=
  [mkRow (some "Ann") none "Pro" 2020 1, mkRow (some "Annie") none "Pro" 2021 2]

/-- C3, counterexample: resolving the *exact* stored name `Ann` does not
yield the single-match outcome (the substring semantics also match
`Annie`), and `smart_dancer_lookup` returns the candidate-list-and-stop
outcome for the substring `Anni` even though the fallback yields exactly
one distinct name — both directly contradicting the claim. -/
theorem c3_counterexample :
    (∃ r ∈ annDb, r.maleName = some "Ann") ∧
    dancerSearch annDb { dancer_name := some "Ann" } = .multiple ["Ann", "Annie"] 2 ∧
    smartDancerLookup annDb { dancer_name := some "Anni" } 10 = .candidates ["Annie"] 1 := by
  decide

/-- C3, amended: `dancer_search` resolution depends only on the distinct
substring-match list: whenever a search string and the exact name it
denotes both narrow to the same single name, the two calls return the
identical resolved profile; and in `smart_dancer_lookup` the
candidate-list-and-stop outcome occurs exactly when there is no exact
match and the substring fallback matches at least one row — even when it
yields a single distinct name. -/
theorem c3_resolution_behaviour :
    (∀ (df : List Row) (f : FilterSpec) (s n : String), s ≠ "" → n ≠ "" →
      dsAllMatches df s = [n] → dsAllMatches df n = [n] →
      dancerSearchCore df f s = dancerSearchCore df f n ∧
      ∃ tot wins divs yrs, dancerSearchCore df f s = .single n tot wins divs yrs) ∧
    (∀ (df : List Row) (f : FilterSpec) (limit : Nat),
      pyStrip (f.dancer_name.getD "") ≠ "" →
      ((smartDancerLookup df f limit).isCandidates = true ↔
        slExactRows df (pyStrip (f.dancer_name.getD "")) = [] ∧
        slPartialRows df (pyStrip (f.dancer_name.getD "")) ≠ [])) := by
  constructor
  · intro df f s n hs hn hms hmn
    constructor
    · unfold dancerSearchCore
      rw [if_neg hs, if_neg hn, hms, hmn]
    · unfold dancerSearchCore
      rw [if_neg hs, hms]
      exact ⟨_, _, _, _, rfl⟩
  · intro df f limit hs
    unfold smartDancerLookup smartDancerLookupCore
    rw [if_neg hs]
    by_cases hex : 0 < (slExactRows df (pyStrip (f.dancer_name.getD ""))).length
    · have hne : slExactRows df (pyStrip (f.dancer_name.getD "")) ≠ [] :=
        List.length_pos.mp hex
      simp [hex, SLOutcome.isCandidates, hne]
    · have heq : slExactRows df (pyStrip (f.dancer_name.getD "")) = [] := by
        simpa using List.length_eq_zero.mp (by omega)
      by_cases hp : 0 < (slPartialRows df (pyStrip (f.dancer_name.getD ""))).length
      · have hpne : slPartialRows df (pyStrip (f.dancer_name.getD "")) ≠ [] :=
          List.length_pos.mp hp
        simp [hex, hp, SLOutcome.isCandidates, heq, hpne]
      · have hpeq : slPartialRows df (pyStrip (f.dancer_name.getD "")) = [] := by
          simpa using List.length_eq_zero.mp (by omega)
        simp [hex, hp, SLOutcome.isCandidates, heq, hpeq]

/-- A store with the single dancer `Bob Q`. -/
def bobDb : List Row := [mkRow (some "Bob Q") none "Pro" 2020 1]

/-- C3, witness: on `bobDb` the substring `bob` narrows uniquely to
`Bob Q`, and resolving it coincides with resolving the exact name. -/
theorem c3_resolution_behaviour_witness :
    dancerSearchCore bobDb {} "bob" = dancerSearchCore bobDb {} "Bob Q" :=
  (c3_resolution_behaviour.1 bobDb {} "bob" "Bob Q" (by decide) (by decide)
    (by decide) (by decide)).1

theorem allJudges_eq_nil {d : List Row}
    (h : ∀ r ∈ d, r.judge1 = none ∧ r.judge2 = none ∧ r.judge3 = none ∧
      r.judge4 = none ∧ r.judge5 = none) : allJudges d = [] := by
  unfold allJudges
  rw [List.filterMap_eq_nil_iff.mpr (fun r hr => (h r hr).1),
    List.filterMap_eq_nil_iff.mpr (fun r hr => (h r hr).2.1),
    List.filterMap_eq_nil_iff.mpr (fun r hr => (h r hr).2.2.1),
    List.filterMap_eq_nil_iff.mpr (fun r hr => (h r hr).2.2.2.1),
    List.filterMap_eq_nil_iff.mpr (fun r hr => (h r hr).2.2.2.2)]
  rfl

/-- C4: when every filtered row has all five judge slots empty,
`judge_statistics` reports zero records with judge data, a without-count
equal to the filtered record count and an empty ranking, and the
dispatcher returns this as an ordinary result — not an error. -/
theorem c4_judge_stats_all_null (df : List Row) (f : FilterSpec) (limit : Nat)
    (h : ∀ r ∈ applyFilters f df, r.judge1 = none ∧ r.judge2 = none ∧
      r.judge3 = none ∧ r.judge4 = none ∧ r.judge5 = none) :
    executeQueryCsaData df "judge_statistics" f limit =
      .judgeStats
        { query_type := "judge_statistics", filters_applied := f,
          total_database_records := df.length,
          filtered_records := filteredCount f df, limit := min limit 50 }
        { results := [], totalContestRecords := none,
          recordsWithJudgeData := 0,
          recordsWithoutJudgeData := filteredCount f df } := by
  have hj : allJudges (applyFilters f df) = [] := allJudges_eq_nil h
  simp [executeQueryCsaData, judgeStatsOn, hj, filteredCount]

/-- A store whose rows carry no judge data at all. -/
def judgeFreeDb : List Row :=
  [mkRow (some "Al") (some "Bea") "Novice" 2001 1,
   mkRow (some "Cy") (some "Di") "Novice" 2002 3]

/-- C4, witness: on the judge-free store with no filters the branch
reports `0` with-judge records, `2` without, and no ranking. -/
theorem c4_judge_stats_all_null_witness :
    executeQueryCsaData judgeFreeDb "judge_statistics" emptySpec 10 =
      .judgeStats
        { query_type := "judge_statistics", filters_applied := emptySpec,
          total_database_records := 2, filtered_records := 2, limit := 10 }
        { results := [], totalContestRecords := none,
          recordsWithJudgeData := 0, recordsWithoutJudgeData := 2 } :=
  c4_judge_stats_all_null judgeFreeDb emptySpec 10 (by decide)

/-- C5: `retention_analysis` always reports `reached_pro` at most
`total_amateur_dancers`, and its rate is exactly
`reached_pro / total_amateur_dancers * 100` rounded to one decimal —
with `0` (rather than a division error) when there are no Amateur
dancers. -/
theorem c5_retention (df : List Row) :
    (retentionAnalysis df).reachedPro ≤ (retentionAnalysis df).totalAmateurDancers ∧
    (retentionAnalysis df).retentionRatePct =
      (if (retentionAnalysis df).totalAmateurDancers = 0 then 0
       else round1 (((retentionAnalysis df).reachedPro : ℚ) /
         ((retentionAnalysis df).totalAmateurDancers : ℚ) * 100)) := by
  constructor
  · exact List.length_filter_le _ _
  · unfold retentionAnalysis
    by_cases h : (divisionDancers df "Amateur").isEmpty
    · have h0 : (divisionDancers df "Amateur").length = 0 := by
        simpa [List.isEmpty_iff] using h
      simp [h, h0]
    · have h0 : (divisionDancers df "Amateur").length ≠ 0 := by
        rw [List.isEmpty_iff] at h
        simpa using h
      simp [h, h0]

theorem mem_madeItToPro (df : List Row) (n : String) :
    n ∈ madeItToPro df ↔
      n ∈ divisionDancers df "Amateur" ∧ n ∈ divisionDancers df "Pro" := by
  unfold madeItToPro
  simp [List.mem_filter]

theorem progOf_isSome_iff (df : List Row) (n : String) :
    (progOf df n).isSome = true ↔
      ∃ fa fp, (dancerDivYears df n "Amateur").min? = some fa ∧
        (dancerDivYears df n "Pro").min? = some fp ∧ fa < fp := by
  unfold progOf
  cases ha : (dancerDivYears df n "Amateur").min? with
  | none => simp
  | some fa =>
      cases hp : (dancerDivYears df n "Pro").min? with
      | none => simp
      | some fp =>
          by_cases hlt : fa < fp
          · have : fp - fa > 0 := by omega
            simp [this, hlt]
          · have : ¬ (fp - fa > 0) := by omega
            simp [this, hlt]

/-- C6: `career_progression_time` analyzes exactly the dancers that
appear in both the Amateur and the Pro division with first Pro year
strictly after first Amateur year — the reported count is the number of
such dancers — and every measured progression value is strictly
positive, so no excluded dancer can contribute a negative or zero
value. -/
theorem c6_progression (df : List Row) :
    (∀ t ∈ progressionTimes df, 0 < t) ∧
    (careerProgressionTime df).dancersAnalyzed = (progressionTimes df).length ∧
    (∀ n : String,
      (n ∈ madeItToPro df ∧ (progOf df n).isSome = true) ↔
        (n ∈ divisionDancers df "Amateur" ∧ n ∈ divisionDancers df "Pro" ∧
          ∃ fa fp, (dancerDivYears df n "Amateur").min? = some fa ∧
            (dancerDivYears df n "Pro").min? = some fp ∧ fa < fp)) := by
  refine ⟨?_, rfl, ?_⟩
  · intro t ht
    unfold progressionTimes at ht
    rcases List.mem_filterMap.mp ht with ⟨n, _, hsome⟩
    unfold progOf at hsome
    cases ha : (dancerDivYears df n "Amateur").min? with
    | none => rw [ha] at hsome; simp at hsome
    | some fa =>
        cases hp : (dancerDivYears df n "Pro").min? with
        | none => rw [ha, hp] at hsome; simp at hsome
        | some fp =>
            rw [ha, hp] at hsome
            have hsome2 : (if fp - fa > 0 then some (fp - fa) else none) = some t := hsome
            by_cases hgt : fp - fa > 0
            · rw [if_pos hgt] at hsome2
              have : fp - fa = t := by simpa using hsome2
              omega
            · rw [if_neg hgt] at hsome2
              simp at hsome2
  · intro n
    rw [mem_madeItToPro, progOf_isSome_iff, and_assoc]

/-- A store where dancer `D` reaches Pro two years after first competing
Amateur, while dancer `E`'s first Pro year precedes their first Amateur
year. -/
def progDb : List Row :=
  [mkRow (some "D") none "Amateur" 2010 2,
   mkRow (some "D") none "Pro" 2012 1,
   mkRow (some "E") none "Pro" 2008 1,
   mkRow (some "E") none "Amateur" 2010 2]

/-- C6, witness: on `progDb` the only measured progression time is the
positive value 2 (dancer `E` is excluded entirely). -/
theorem c6_progression_witness : (0 : Int) < 2 :=
  (c6_progression progDb).1 2 (by decide)

theorem yearlyGroupSizes_sum (d : List Row) :
    ((yearlyGroupSizes d).map Prod.snd).sum = d.length := by
  unfold yearlyGroupSizes
  rw [List.map_map]
  have hfun : (Prod.snd ∘ fun y => (y, (d.filter (fun r => r.year == y)).length)) =
      fun y => (d.map (·.year)).count y := by
    funext y
    simp only [Function.comp_apply, List.count_eq_countP,
      ← List.countP_eq_length_filter, List.countP_map]
    rfl
  rw [hfun]
  have h1 := (isort_perm (fun a b => decide (a ≤ b))
    (uniqueFirst (d.map (·.year)))).map (fun y => (d.map (·.year)).count y)
  have h2 := (uniqueFirst_perm_dedup (d.map (·.year))).map
    (fun y => (d.map (·.year)).count y)
  rw [h1.sum_eq, h2.sum_eq, List.sum_map_count_dedup_eq_length, List.length_map]

/-- C7: for every filter specification, the per-year counts of
`yearly_trends` with metric `entries`, summed over all years, equal the
filtered row count of that same specification. -/
theorem c7_yearly_entries_sum (f : FilterSpec) (df : List Row) :
    (((yearlyTrendsOn { f with metric := some "entries" }
        (applyFilters { f with metric := some "entries" } df)).yearlyData).map
      Prod.snd).sum = filteredCount { f with metric := some "entries" } df := by
  unfold yearlyTrendsOn filteredCount
  simp only [Option.getD_some]
  rw [if_neg (by decide)]
  exact yearlyGroupSizes_sum _

theorem mem_dedupLastById {x : Row} {l : List Row} (h : x ∈ dedupLastById l) :
    x ∈ l := by
  induction l with
  | nil => simpa [dedupLastById] using h
  | cons a t ih =>
      unfold dedupLastById at h
      by_cases ha : t.any (fun b => b.archiveId == a.archiveId)
      · rw [if_pos ha] at h
        exact List.mem_cons_of_mem a (ih h)
      · rw [if_neg ha] at h
        rcases List.mem_cons.mp h with h1 | h2
        · exact h1 ▸ List.mem_cons_self x t
        · exact List.mem_cons_of_mem a (ih h2)

theorem updateArchiveData_length (existing batch : List Row) :
    (updateArchiveData existing batch).length =
      existing.length +
        ((dedupLastById batch).filter
          (fun b => !idInStore existing b.archiveId)).length := by
  unfold updateArchiveData
  rw [isort_length, List.length_append, List.length_map]

/-- C8: the offline merge preserves the row count when every batch row's
Archive ID already exists in the store (only fields change), and grows it
by exactly the batch size after intra-batch keep-last de-duplication when
every batch row's Archive ID is new. -/
theorem c8_merge_row_counts (existing batch : List Row) :
    ((∀ b ∈ batch, idInStore existing b.archiveId = true) →
      (updateArchiveData existing batch).length = existing.length) ∧
    ((∀ b ∈ batch, idInStore existing b.archiveId = false) →
      (updateArchiveData existing batch).length =
        existing.length + (dedupLastById batch).length) := by
  constructor
  · intro h
    rw [updateArchiveData_length]
    have hnil : (dedupLastById batch).filter
        (fun b => !idInStore existing b.archiveId) = [] := by
      rw [List.filter_eq_nil_iff]
      intro b hb
      simp [h b (mem_dedupLastById hb)]
    rw [hnil]
    rfl
  · intro h
    rw [updateArchiveData_length]
    have hall : (dedupLastById batch).filter
        (fun b => !idInStore existing b.archiveId) = dedupLastById batch := by
      rw [List.filter_eq_self]
      intro b hb
      simp [h b (mem_dedupLastById hb)]
    rw [hall]

/-- A row with a given Archive ID (other fields fixed). -/
def idRow (i : Int) : Row :=
  { mkRow (some "X") none "Pro" 2000 1 with archiveId := i }

/-- A two-row store with Archive IDs 1 and 2. -/
def c8Store : List Row := [idRow 1, idRow 2]

/-- A batch whose rows all carry the pre-existing Archive ID 1. -/
def c8BatchOld : List Row := [idRow 1, idRow 1]

/-- A batch of entirely new Archive IDs 3 (twice) and 4. -/
def c8BatchNew : List Row := [idRow 3, idRow 3, idRow 4]

/-- C8, witness: merging the duplicate-ID batch leaves 2 rows; merging
the new-ID batch (deduplicated from 3 rows to 2) gives 4 rows. -/
theorem c8_merge_row_counts_witness :
    (updateArchiveData c8Store c8BatchOld).length = 2 ∧
    (updateArchiveData c8Store c8BatchNew).length = 4 := by
  constructor
  · have h := (c8_merge_row_counts c8Store c8BatchOld).1 (by decide)
    rw [h]
    decide
  · have h := (c8_merge_row_counts c8Store c8BatchNew).2 (by decide)
    rw [h]
    decide

/-- C9, counterexample: `"win rate"` is a short question (8 characters,
well under the 20-character threshold) yet `should_cache_query` returns
`true` for it — the explicit cache patterns are consulted before the
length default — and a successful long answer to it is stored in the
smart cache.  Short questions are therefore not excluded from caching. -/
theorem c9_counterexample :
    shouldCacheQuery "win rate" = true ∧
    (normalizeQuery "win rate").data.length ≤ 20 ∧
    smartCacheStores "win rate"
      "Sam West has the highest win rate at 66.7 percent of 72 contests." = true := by
  decide

theorem shouldCacheQuery_of_noCache {q : String}
    (h : containsAnyPattern noCachePatterns q = true) :
    shouldCacheQuery q = false := by
  unfold shouldCacheQuery
  rw [h]
  rfl

/-- C9, amended: every question containing a time-relative word
(`current`, `today`, `recent`, `latest`, `this year`, `register`,
`feedback`) is never cacheable and its final answer is never stored in
the smart cache; a short question (at most 20 characters after
normalization) is excluded from caching only when it also matches none
of the explicit cache patterns. -/
theorem c9_cacheability (q answer : String) :
    (containsAnyPattern noCachePatterns q = true →
      shouldCacheQuery q = false ∧ smartCacheStores q answer = false) ∧
    (containsAnyPattern noCachePatterns q = false →
      containsAnyPattern cachePatterns q = false →
      (normalizeQuery q).length ≤ 20 →
      shouldCacheQuery q = false) := by
  constructor
  · intro h
    refine ⟨shouldCacheQuery_of_noCache h, ?_⟩
    unfold smartCacheStores
    rw [shouldCacheQuery_of_noCache h]
    simp
  · intro h1 h2 h3
    unfold shouldCacheQuery
    rw [h1, h2]
    simpa using by omega

/-- C9, witness: a question containing `today` is neither cacheable nor
stored, and a short pattern-free question is not cacheable either. -/
theorem c9_cacheability_witness :
    (shouldCacheQuery "what happened today" = false ∧
      smartCacheStores "what happened today" "answer text" = false) ∧
    shouldCacheQuery "pro wins" = false :=
  ⟨(c9_cacheability "what happened today" "answer text").1 (by decide),
   (c9_cacheability "pro wins" "answer text").2 (by decide) (by decide) (by decide)⟩

/-- C10: a `query_type` outside the recognized catalog reaches no branch
and the dispatcher returns exactly the base metadata result (query type,
filters, total and filtered counts, capped limit) — no error field and no
data payload. -/
theorem c10_unknown_query_type (df : List Row) (q : String) (f : FilterSpec)
    (limit : Nat) (h : q ∉ recognizedQueryTypes) :
    executeQueryCsaData df q f limit =
      .base
        { query_type := q, filters_applied := f,
          total_database_records := df.length,
          filtered_records := filteredCount f df, limit := min limit 50 } := by
  simp only [recognizedQueryTypes, List.mem_cons, List.not_mem_nil, or_false,
    not_or] at h
  obtain ⟨h1, h2, h3, h4, h5, h6, h7, h8, h9, h10, h11, h12, h13⟩ := h
  simp [executeQueryCsaData, h1, h2, h3, h4, h5, h6, h7, h8, h9, h10, h11,
    h12, h13, filteredCount]

/-- C10, witness: the unknown query type `bogus` on the judge-free store
returns the bare base result. -/
theorem c10_unknown_query_type_witness :
    executeQueryCsaData judgeFreeDb "bogus" emptySpec 10 =
      .base
        { query_type := "bogus", filters_applied := emptySpec,
          total_database_records := 2, filtered_records := 2, limit := 10 } :=
  c10_unknown_query_type judgeFreeDb "bogus" emptySpec 10 (by decide)
